import Mathlib

/-!
Shallow embedding of aw-watcher-spotify (src/aw_watcher_spotify/main.py):
the playback poller, the enrichment operation data_from_track, and the
transition-tracker step of the main loop, together with the classified
error handling of the poll phase.
-/

namespace AwWatcherSpotify

/-- The value of the "type" key of a raw playing item: "track" or "episode". -/
inductive ItemKind where
  | track
  | episode
deriving DecidableEq, Repr

/-- A best-effort audio-feature record returned by sp.audio_features. -/
structure AudioFeatures where
  danceability : Rat
  energy : Rat
  tempo : Rat
deriving DecidableEq, Repr

/-- The fields of the raw "item" dict of a playback response that the code
reads: name, id, uri, type, artists[0].name, album.name, popularity,
show.publisher, show.name.  A remote popularity of null/omitted is modelled
as none. -/
structure RawItem where
  kind : ItemKind
  name : String
  id : String
  uri : String
  artistName : String
  albumName : String
  popularity : Option Int
  showPublisher : String
  showName : String
deriving DecidableEq, Repr

/-- The fields of the raw playback response dict that the code reads:
is_playing, item, progress_ms. -/
structure RawResponse where
  isPlaying : Bool
  item : RawItem
  progressMs : Nat
deriving DecidableEq, Repr

/-- Outcome of one call sp.audio_features(id)[0]:
none models the call raising SpotifyException (absorbed by the code);
some none models a successful call whose first element is falsy (so the
code falls back to an empty dict); some (some f) models features f. -/
abbrev AFOutcome := Option (Option AudioFeatures)

/-- The enriched data dict built by data_from_track: the audio-feature
fields (absent when lookup failed or returned nothing) plus the keys
title, uri, popularity (tracks only), album, artist added by the code. -/
structure TrackData where
  audioFeatures : Option AudioFeatures
  title : String
  uri : String
  popularity : Option Int
  album : String
  artist : String
deriving DecidableEq, Repr

/-- Python truthiness of the expression `popularity or -1`: None and 0
are falsy and give -1; any other integer is kept. -/
def popularityOrNeg1 : Option Int → Int
  | none => -1
  | some n => if n = 0 then -1 else n

/-- get_current_track: returns the playback response only when it is
present (truthy) and its is_playing flag is true; otherwise None.
A None/empty response is modelled as none. -/
def get_current_track (resp : Option RawResponse) : Option RawResponse :=
  match resp with
  | none => none
  | some r => if r.isPlaying then some r else none

/-- data_from_track: enrich a raw playback response.  The audio-feature
lookup outcome is passed explicitly; a SpotifyException (af = none) is
absorbed as an empty feature dict.  Branches on the item type exactly as
the source does. -/
def data_from_track (track : RawResponse) (af : AFOutcome) : TrackData :=
  let feats : Option AudioFeatures :=
    match af with
    | none => none
    | some o => o
  match track.item.kind with
  | ItemKind.track =>
      ⟨feats, track.item.name, track.item.uri,
       some (popularityOrNeg1 track.item.popularity),
       track.item.albumName, track.item.artistName⟩
  | ItemKind.episode =>
      ⟨feats, track.item.name, track.item.uri, none,
       track.item.showName, track.item.showPublisher⟩

/-- The elapsed-time computation of the loop:
timedelta(seconds=progress_ms/1000).seconds normalises to [0, 86400), and
the code prints (int(seconds/60), int(seconds%60)). -/
def elapsedOf (progressMs : Nat) : Nat × Nat :=
  let s : Nat := (progressMs / 1000) % 86400
  (s / 60, s % 60)

/-- Exception injection points of the tracker step, one per call that the
surrounding try/except can catch: the enrichment of last_track, the
enrichment of track inside the comparison, the enrichment of track before
the heartbeat, and the heartbeat submission itself. -/
structure ExcFlags where
  enrichLast : Bool
  enrichCmp : Bool
  enrichCur : Bool
  hbFail : Bool
deriving DecidableEq, Repr

/-- No exception occurs during the tracker step. -/
def noExc : ExcFlags := ⟨false, false, false, false⟩

/-- A heartbeat event as submitted: aw.heartbeat(bucket, Event(timestamp,
data), pulsetime=poll_time+1, queued=True).  The capture timestamp is an
abstract clock value. -/
structure Heartbeat where
  timestamp : Nat
  data : TrackData
  pulsetime : Rat
  queued : Bool
deriving DecidableEq, Repr

/-- Observable result of one tracker step (the try block at the bottom of
the loop body): which lines were printed, which heartbeats were submitted,
the new value of last_track, and whether an exception was caught. -/
structure StepResult where
  endedLine : Option (Nat × Nat)
  currentLine : Option (Nat × Nat)
  waitingLine : Bool
  heartbeats : List Heartbeat
  lastTrack : Option RawResponse
  raised : Bool
deriving DecidableEq, Repr

/-- Second half of the tracker step: the `if track:` branch that prints the
current line and submits the heartbeat, the `else` branch that prints the
waiting line, and the unconditional assignment last_track = track.  An
exception leaves last_track at its old value. -/
def trackerPhase2 (pollTime : Rat) (now : Nat) (afOf : RawResponse → AFOutcome)
    (flags : ExcFlags) (lastTrack track : Option RawResponse)
    (ended : Option (Nat × Nat)) : StepResult :=
  match track with
  | none => ⟨ended, none, true, [], none, false⟩
  | some tt =>
      if flags.enrichCur then
        ⟨ended, none, false, [], lastTrack, true⟩
      else if flags.hbFail then
        ⟨ended, some (elapsedOf tt.progressMs), false, [], lastTrack, true⟩
      else
        ⟨ended, some (elapsedOf tt.progressMs), false,
         [⟨now, data_from_track tt (afOf tt), pollTime + 1, true⟩],
         some tt, false⟩

/-- One tracker step: the try block of the loop body.  First, when
last_track is present, its data is re-derived and the track-ended line is
printed when track is absent or the enriched uris differ; then the
current/waiting branch runs and last_track is assigned.  Any injected
exception aborts the step at its call site, keeping the outputs already
produced and leaving last_track unchanged. -/
def trackerStep (pollTime : Rat) (now : Nat) (afOf : RawResponse → AFOutcome)
    (flags : ExcFlags) (lastTrack track : Option RawResponse) : StepResult :=
  match lastTrack with
  | none => trackerPhase2 pollTime now afOf flags lastTrack track none
  | some lt =>
      if flags.enrichLast then
        ⟨none, none, false, [], lastTrack, true⟩
      else
        let ltd := data_from_track lt (afOf lt)
        match track with
        | none =>
            trackerPhase2 pollTime now afOf flags lastTrack track
              (some (elapsedOf lt.progressMs))
        | some tt =>
            if flags.enrichCmp then
              ⟨none, none, false, [], lastTrack, true⟩
            else
              let ended :=
                if ltd.uri ≠ (data_from_track tt (afOf tt)).uri then
                  some (elapsedOf lt.progressMs)
                else none
              trackerPhase2 pollTime now afOf flags lastTrack track ended

/-- Outcome of the poll phase get_current_track(sp): either a raw response
(possibly none), or one of the four exception classes caught by the loop,
in the order of the except clauses. -/
inductive PollOutcome where
  | ok : Option RawResponse → PollOutcome
  | spotifyExc : PollOutcome
  | connErr : PollOutcome
  | jsonDecodeErr : PollOutcome
  | otherExc : PollOutcome
deriving DecidableEq, Repr

/-- Observable result of one full loop cycle: whether auth was re-run,
the sleeps performed (in order), whether a full traceback was logged, the
tracker step result when the tracker ran, and the value of last_track
after the cycle. -/
structure CycleResult where
  reauth : Bool
  sleeps : List Rat
  loggedTraceback : Bool
  step : Option StepResult
  lastTrack : Option RawResponse
deriving DecidableEq, Repr

/-- The heartbeats submitted during a cycle. -/
def cycleHeartbeats (c : CycleResult) : List Heartbeat :=
  match c.step with
  | none => []
  | some s => s.heartbeats

/-- One iteration of the while-True loop: the poll phase with its four
except clauses (SpotifyException re-auths and continues with no sleep;
ConnectionError sleeps the full poll interval; JSONDecodeError sleeps 0.1s;
any other exception logs the traceback and sleeps 0.1s), then on success
the tracker step followed by the end-of-cycle sleep(poll_time). -/
def loopCycle (pollTime : Rat) (now : Nat) (afOf : RawResponse → AFOutcome)
    (flags : ExcFlags) (lastTrack : Option RawResponse)
    (poll : PollOutcome) : CycleResult :=
  match poll with
  | PollOutcome.spotifyExc => ⟨true, [], false, none, lastTrack⟩
  | PollOutcome.connErr => ⟨false, [pollTime], false, none, lastTrack⟩
  | PollOutcome.jsonDecodeErr => ⟨false, [(1 : Rat)/10], false, none, lastTrack⟩
  | PollOutcome.otherExc => ⟨false, [(1 : Rat)/10], true, none, lastTrack⟩
  | PollOutcome.ok resp =>
      let track := get_current_track resp
      let st := trackerStep pollTime now afOf flags lastTrack track
      ⟨false, [pollTime], false, some st, st.lastTrack⟩

/-- A sample raw track item for concrete evaluations. -/
def sampleItem : RawItem :=
  ⟨ItemKind.track, "Song A", "idT1", "spotify:track:T1", "Artist A",
   "Album A", some 37, "", ""⟩

/-- A sample playing response carrying sampleItem at 10000 ms. -/
def sampleResp : RawResponse := ⟨true, sampleItem, 10000⟩

/-- A second raw track item with a different uri. -/
def sampleItem2 : RawItem :=
  ⟨ItemKind.track, "Song B", "idT2", "spotify:track:T2", "Artist B",
   "Album B", some 0, "", ""⟩

/-- A sample playing response carrying sampleItem2 at 65000 ms. -/
def sampleResp2 : RawResponse := ⟨true, sampleItem2, 65000⟩

/-- A sample raw episode item. -/
def epItem : RawItem :=
  ⟨ItemKind.episode, "Ep 1", "idE1", "spotify:episode:E1", "", "",
   none, "Publisher P", "Show S"⟩

/-- A sample playing response carrying epItem. -/
def epResp : RawResponse := ⟨true, epItem, 5000⟩

/-- An audio-feature oracle that always succeeds with no features. -/
def afEmpty : RawResponse → AFOutcome := fun _ => some none

/-- An audio-feature oracle that always raises SpotifyException. -/
def afFailAll : RawResponse → AFOutcome := fun _ => none

/-- A sample raw track item whose remote popularity is omitted (null). -/
def trackNoPopItem : RawItem :=
  ⟨ItemKind.track, "Song C", "idT3", "spotify:track:T3", "Artist C",
   "Album C", none, "", ""⟩

/-- A sample playing response carrying trackNoPopItem. -/
def trackNoPopResp : RawResponse := ⟨true, trackNoPopItem, 0⟩

/-- The heartbeat built by the tracker step for sampleResp at clock 0 with
poll interval 5. -/
def hbSample : Heartbeat := ⟨0, data_from_track sampleResp (afEmpty sampleResp), 5 + 1, true⟩

/-- When the tracker step catches an exception, last_track keeps its old
value: the assignment last_track = track sits after every raising call in
the same try block. -/
lemma trackerStep_raised_lastTrack (p : Rat) (n : Nat) (afOf : RawResponse → AFOutcome)
    (f : ExcFlags) (l t : Option RawResponse)
    (h : (trackerStep p n afOf f l t).raised = true) :
    (trackerStep p n afOf f l t).lastTrack = l := by
  obtain ⟨eL, eC, eCur, eHb⟩ := f
  cases eL <;> cases eC <;> cases eCur <;> cases eHb <;> cases l <;> cases t <;>
    simp_all [trackerStep, trackerPhase2]

/-- Every heartbeat a tracker step produces has pulsetime pollTime + 1 and
the capture timestamp. -/
lemma trackerStep_heartbeat_mem (p : Rat) (n : Nat) (afOf : RawResponse → AFOutcome)
    (f : ExcFlags) (l t : Option RawResponse) (hb : Heartbeat)
    (h : hb ∈ (trackerStep p n afOf f l t).heartbeats) :
    hb.pulsetime = p + 1 ∧ hb.timestamp = n := by
  obtain ⟨eL, eC, eCur, eHb⟩ := f
  cases eL <;> cases eC <;> cases eCur <;> cases eHb <;> cases l <;> cases t <;>
    simp_all [trackerStep, trackerPhase2]

/-- C1 (amended): after a tracker step during which no exception occurs,
the remembered last_track equals the current value received from the
poller, regardless of which emission branch fired.  The unconditional form
of the claim fails when an exception occurs: see the counterexample. -/
theorem C1_state_update (p : Rat) (n : Nat) (afOf : RawResponse → AFOutcome)
    (l t : Option RawResponse) :
    (trackerStep p n afOf noExc l t).lastTrack = t := by
  cases l <;> cases t <;> simp [trackerStep, trackerPhase2, noExc]

/-- C1 (counterexample): a cycle in which the enrichment of last_track
raises keeps last_track at its previous value, which differs from the
current value none that the poller delivered, refuting the claim for
cycles in which an exception occurs. -/
theorem C1_counterexample :
    (trackerStep 5 0 afEmpty ⟨true, false, false, false⟩ (some sampleResp) none).raised = true
  ∧ (trackerStep 5 0 afEmpty ⟨true, false, false, false⟩ (some sampleResp) none).lastTrack ≠ none := by
  decide

/-- C2 (amended): in a tracker step that completes without exception, a
track-ended line is emitted iff last_track is present and current is
absent or the enriched uris differ, and the printed elapsed time is
derived from the progress_ms of last_track. -/
theorem C2_track_ended_iff (p : Rat) (n : Nat) (afOf : RawResponse → AFOutcome)
    (l t : Option RawResponse) :
    ((trackerStep p n afOf noExc l t).endedLine.isSome = true ↔
      (∃ lt, l = some lt ∧ (t = none ∨ ∃ tt, t = some tt ∧
        (data_from_track lt (afOf lt)).uri ≠ (data_from_track tt (afOf tt)).uri)))
  ∧ (∀ lt, l = some lt → ∀ e, (trackerStep p n afOf noExc l t).endedLine = some e →
      e = elapsedOf lt.progressMs) := by
  cases l with
  | none => cases t <;> simp [trackerStep, trackerPhase2, noExc]
  | some lt =>
    cases t with
    | none => simp [trackerStep, trackerPhase2, noExc]
    | some tt =>
      by_cases h : (data_from_track lt (afOf lt)).uri = (data_from_track tt (afOf tt)).uri
      · simp [trackerStep, trackerPhase2, noExc, h]
      · simp [trackerStep, trackerPhase2, noExc, h]

/-- C2 (witness): with a remembered track and no current item the ended
line fires and reports 0:10 for 10000 ms of progress. -/
theorem C2_witness :
    (trackerStep 5 0 afEmpty noExc (some sampleResp) none).endedLine.isSome = true
  ∧ (0, 10) = elapsedOf sampleResp.progressMs :=
  ⟨(C2_track_ended_iff 5 0 afEmpty (some sampleResp) none).1.mpr ⟨sampleResp, rfl, Or.inl rfl⟩,
   (C2_track_ended_iff 5 0 afEmpty (some sampleResp) none).2 sampleResp rfl (0, 10) (by decide)⟩

/-- C2 (counterexample): last_track is present and current is absent, so
the claim demands a track-ended line, yet an exception in the enrichment
of last_track suppresses it. -/
theorem C2_counterexample :
    (trackerStep 5 0 afEmpty ⟨true, false, false, false⟩ (some sampleResp) none).endedLine.isSome = false
  ∧ (some sampleResp : Option RawResponse).isSome = true
  ∧ (none : Option RawResponse).isSome = false := by
  decide

/-- C3 (amended): a tracker step never submits more than one heartbeat, a
heartbeat is submitted only when current is present, and in a step that
raises no exception a heartbeat is submitted iff current is present. -/
theorem C3_heartbeat_iff (p : Rat) (n : Nat) (afOf : RawResponse → AFOutcome)
    (f : ExcFlags) (l t : Option RawResponse) :
    (trackerStep p n afOf f l t).heartbeats.length ≤ 1
  ∧ ((trackerStep p n afOf f l t).heartbeats ≠ [] → t.isSome = true)
  ∧ ((trackerStep p n afOf noExc l t).heartbeats.length = 1 ↔ t.isSome = true) := by
  obtain ⟨eL, eC, eCur, eHb⟩ := f
  cases eL <;> cases eC <;> cases eCur <;> cases eHb <;> cases l <;> cases t <;>
    simp [trackerStep, trackerPhase2, noExc]

/-- C3 (witness): a concrete exception-free step with a present current
item submits its single heartbeat. -/
theorem C3_witness :
    (trackerStep 5 0 afEmpty noExc none (some sampleResp)).heartbeats.length ≤ 1
  ∧ (some sampleResp : Option RawResponse).isSome = true :=
  ⟨(C3_heartbeat_iff 5 0 afEmpty noExc none (some sampleResp)).1,
   (C3_heartbeat_iff 5 0 afEmpty noExc none (some sampleResp)).2.1 (by decide)⟩

/-- C3 (counterexample): current is present, yet the cycle submits no
heartbeat because the enrichment of last_track raised first, refuting the
unconditional only-if direction of the claim. -/
theorem C3_counterexample :
    (trackerStep 5 0 afEmpty ⟨true, false, false, false⟩ (some sampleResp) (some sampleResp2)).heartbeats.length = 0
  ∧ (some sampleResp2 : Option RawResponse).isSome = true := by
  decide

/-- C4: every heartbeat any loop cycle submits carries
pulsetime = poll_time + 1 together with the capture timestamp. -/
theorem C4_pulsetime (p : Rat) (n : Nat) (afOf : RawResponse → AFOutcome)
    (f : ExcFlags) (l : Option RawResponse) (po : PollOutcome) (hb : Heartbeat)
    (h : hb ∈ cycleHeartbeats (loopCycle p n afOf f l po)) :
    hb.pulsetime = p + 1 ∧ hb.timestamp = n := by
  cases po with
  | ok r =>
      simp only [loopCycle, cycleHeartbeats] at h
      exact trackerStep_heartbeat_mem p n afOf f l (get_current_track r) hb h
  | spotifyExc => simp [loopCycle, cycleHeartbeats] at h
  | connErr => simp [loopCycle, cycleHeartbeats] at h
  | jsonDecodeErr => simp [loopCycle, cycleHeartbeats] at h
  | otherExc => simp [loopCycle, cycleHeartbeats] at h

/-- C4 (witness): the heartbeat of a concrete cycle with poll interval 5
has pulsetime 5 + 1 and timestamp 0. -/
theorem C4_witness : hbSample.pulsetime = 5 + 1 ∧ hbSample.timestamp = 0 :=
  C4_pulsetime 5 0 afEmpty noExc none (PollOutcome.ok (some sampleResp)) hbSample
    (List.mem_singleton_self hbSample)

/-- C5: the four except clauses of the poll phase, mutually exclusive by
the dispatch order of the chain, behave as claimed: SpotifyException
re-authenticates and retries without sleeping, ConnectionError sleeps the
full poll interval, JSONDecodeError sleeps 0.1 s, and any other exception
logs the full traceback and sleeps 0.1 s; in every case last_track is
unchanged and no heartbeat is submitted, and none of them escapes the
loop. -/
theorem C5_poll_error_handling (p : Rat) (n : Nat) (afOf : RawResponse → AFOutcome)
    (f : ExcFlags) (l : Option RawResponse) :
    (loopCycle p n afOf f l PollOutcome.spotifyExc).reauth = true
  ∧ (loopCycle p n afOf f l PollOutcome.spotifyExc).sleeps = []
  ∧ (loopCycle p n afOf f l PollOutcome.spotifyExc).lastTrack = l
  ∧ cycleHeartbeats (loopCycle p n afOf f l PollOutcome.spotifyExc) = []
  ∧ (loopCycle p n afOf f l PollOutcome.connErr).reauth = false
  ∧ (loopCycle p n afOf f l PollOutcome.connErr).sleeps = [p]
  ∧ (loopCycle p n afOf f l PollOutcome.connErr).lastTrack = l
  ∧ cycleHeartbeats (loopCycle p n afOf f l PollOutcome.connErr) = []
  ∧ (loopCycle p n afOf f l PollOutcome.jsonDecodeErr).sleeps = [(1 : Rat)/10]
  ∧ (loopCycle p n afOf f l PollOutcome.jsonDecodeErr).lastTrack = l
  ∧ cycleHeartbeats (loopCycle p n afOf f l PollOutcome.jsonDecodeErr) = []
  ∧ (loopCycle p n afOf f l PollOutcome.otherExc).loggedTraceback = true
  ∧ (loopCycle p n afOf f l PollOutcome.otherExc).sleeps = [(1 : Rat)/10]
  ∧ (loopCycle p n afOf f l PollOutcome.otherExc).lastTrack = l
  ∧ cycleHeartbeats (loopCycle p n afOf f l PollOutcome.otherExc) = [] := by
  simp [loopCycle, cycleHeartbeats]

/-- C6: data_from_track never sets popularity for an episode and defaults
a track with omitted (null) popularity to -1; both kinds populate title,
uri, the artist-or-publisher field and the album-or-show field. -/
theorem C6_enrichment_fields (r : RawResponse) (af : AFOutcome) :
    (r.item.kind = ItemKind.episode →
      (data_from_track r af).popularity = none ∧
      (data_from_track r af).artist = r.item.showPublisher ∧
      (data_from_track r af).album = r.item.showName)
  ∧ (r.item.kind = ItemKind.track →
      ((r.item.popularity = none → (data_from_track r af).popularity = some (-1)) ∧
       (data_from_track r af).artist = r.item.artistName ∧
       (data_from_track r af).album = r.item.albumName))
  ∧ (data_from_track r af).title = r.item.name
  ∧ (data_from_track r af).uri = r.item.uri := by
  obtain ⟨ip, ⟨k, nm, i, u, an, al, pop, spub, snm⟩, pm⟩ := r
  cases k <;> simp [data_from_track, popularityOrNeg1]
  intro hp
  subst hp
  rfl

/-- C6 (witness): the sample episode gets no popularity; the sample track
with omitted popularity gets -1. -/
theorem C6_witness :
    (data_from_track epResp (some none)).popularity = none
  ∧ (data_from_track trackNoPopResp (some none)).popularity = some (-1) :=
  ⟨((C6_enrichment_fields epResp (some none)).1 rfl).1,
   ((C6_enrichment_fields trackNoPopResp (some none)).2.1 rfl).1 rfl⟩

/-- C7 (amended): a SpotifyException from the audio-feature lookup is
absorbed inside data_from_track: the result merely lacks audio-feature
attributes, title is still populated, popularity is present for track
items (episodes never carry one), and an otherwise exception-free cycle
still submits its heartbeat. -/
theorem C7_af_failure_absorbed (p : Rat) (n : Nat) (l : Option RawResponse) (r : RawResponse) :
    (data_from_track r none).audioFeatures = none
  ∧ (data_from_track r none).title = r.item.name
  ∧ (r.item.kind = ItemKind.track → (data_from_track r none).popularity.isSome = true)
  ∧ (trackerStep p n afFailAll noExc l (some r)).heartbeats.length = 1 := by
  refine ⟨?_, ?_, ?_, ?_⟩
  · cases hk : r.item.kind <;> simp [data_from_track, hk]
  · cases hk : r.item.kind <;> simp [data_from_track, hk]
  · intro hk
    simp [data_from_track, hk]
  · exact ((C3_heartbeat_iff p n afFailAll noExc l (some r)).2.2).mpr rfl

/-- C7 (witness): the sample track with a failed audio-feature lookup
keeps its popularity and its cycle still heartbeats. -/
theorem C7_witness :
    (data_from_track sampleResp none).audioFeatures = none
  ∧ (data_from_track sampleResp none).popularity.isSome = true
  ∧ (trackerStep 5 0 afFailAll noExc none (some sampleResp)).heartbeats.length = 1 :=
  ⟨(C7_af_failure_absorbed 5 0 none sampleResp).1,
   (C7_af_failure_absorbed 5 0 none sampleResp).2.2.1 rfl,
   (C7_af_failure_absorbed 5 0 none sampleResp).2.2.2⟩

/-- C7 (counterexample): for a playing episode whose audio-feature lookup
fails, the heartbeat is emitted but its data carries no popularity field,
refuting the claim that every playing item heartbeats with popularity
present. -/
theorem C7_counterexample :
    ((trackerStep 5 0 afFailAll noExc none (some epResp)).heartbeats.map
      (fun h => h.data.popularity)) = [none] := by
  decide

/-- C8: get_current_track maps a None/empty response and a response whose
is_playing flag is false both to none, and returns the item exactly when
the response is present with is_playing true. -/
theorem C8_poll_none_equiv (r : RawResponse) :
    get_current_track none = none
  ∧ (r.isPlaying = false → get_current_track (some r) = none)
  ∧ (r.isPlaying = true → get_current_track (some r) = some r) := by
  refine ⟨rfl, ?_, ?_⟩ <;> intro h <;> simp [get_current_track, h]

/-- C8 (witness): a concrete paused response maps to none and a playing
one is returned unchanged. -/
theorem C8_witness :
    get_current_track (some (⟨false, sampleItem, 0⟩ : RawResponse)) = none
  ∧ get_current_track (some sampleResp) = some sampleResp :=
  ⟨(C8_poll_none_equiv ⟨false, sampleItem, 0⟩).2.1 rfl,
   (C8_poll_none_equiv sampleResp).2.2 rfl⟩

/-- C9: the Python-truthiness default in data_from_track replaces a remote
track popularity of exactly 0 by -1, so an enriched track popularity is
never 0. -/
theorem C9_zero_popularity (r : RawResponse) (af : AFOutcome)
    (h : r.item.kind = ItemKind.track) :
    (r.item.popularity = some 0 → (data_from_track r af).popularity = some (-1))
  ∧ (data_from_track r af).popularity ≠ some 0 := by
  constructor
  · intro hp
    simp [data_from_track, h, popularityOrNeg1, hp]
  · simp only [data_from_track, h]
    cases hp : r.item.popularity with
    | none => simp [popularityOrNeg1]
    | some v =>
        simp only [popularityOrNeg1]
        split <;> simp_all

/-- C9 (witness): the sample track with remote popularity 0 is enriched to
-1, not 0. -/
theorem C9_witness :
    (data_from_track sampleResp2 (some none)).popularity = some (-1)
  ∧ (data_from_track sampleResp2 (some none)).popularity ≠ some 0 :=
  ⟨(C9_zero_popularity sampleResp2 (some none) rfl).1 rfl,
   (C9_zero_popularity sampleResp2 (some none) rfl).2⟩

/-- C10: when the tracker step of a successful-poll cycle catches an
exception, last_track keeps exactly its previous value (the assignment is
skipped) and the cycle still proceeds to the inter-cycle sleep of the poll
interval. -/
theorem C10_exception_preserves_state (p : Rat) (n : Nat) (afOf : RawResponse → AFOutcome)
    (f : ExcFlags) (l : Option RawResponse) (r : Option RawResponse) (st : StepResult)
    (h1 : (loopCycle p n afOf f l (PollOutcome.ok r)).step = some st)
    (h2 : st.raised = true) :
    (loopCycle p n afOf f l (PollOutcome.ok r)).lastTrack = l
  ∧ (loopCycle p n afOf f l (PollOutcome.ok r)).sleeps = [p] := by
  have hst : trackerStep p n afOf f l (get_current_track r) = st := by
    simpa [loopCycle] using h1
  subst hst
  refine ⟨?_, by simp [loopCycle]⟩
  simp only [loopCycle]
  exact trackerStep_raised_lastTrack p n afOf f l (get_current_track r) h2

/-- C10 (witness): a concrete cycle whose tracker step raises keeps
last_track and sleeps the poll interval. -/
theorem C10_witness :
    (loopCycle 5 0 afEmpty ⟨true, false, false, false⟩ (some sampleResp) (PollOutcome.ok none)).lastTrack = some sampleResp
  ∧ (loopCycle 5 0 afEmpty ⟨true, false, false, false⟩ (some sampleResp) (PollOutcome.ok none)).sleeps = [5] :=
  C10_exception_preserves_state 5 0 afEmpty ⟨true, false, false, false⟩ (some sampleResp) none
    (trackerStep 5 0 afEmpty ⟨true, false, false, false⟩ (some sampleResp) (get_current_track none))
    rfl (by decide)

end AwWatcherSpotify
